import Mathlib

/-!
Shallow embedding of the OECD SDMX client (src/sdmx-client.ts and
src/known-dataflows.ts) together with proofs about its request pipeline:
filter sanitization, rate limiting, retry with backoff, error translation,
and SDMX-JSON observation decoding.

JavaScript runtime behaviour (truthiness, property access on possibly
nullish values, `Object.entries`, `parseInt`, percent encoding) is modelled
explicitly; thrown exceptions are modelled with `Except`, `undefined` with
`Option`.  Timestamps and durations are in milliseconds as `Nat`.
-/

namespace OecdSdmx

/-! ## Catalog (known-dataflows.ts)

Only the fields consumed by the client operations (`id`, `fullId`,
`agency`) are embedded; `version`, `name`, `description` and `category`
are documentation-only strings never read by the embedded operations. -/

structure KnownDataflow where
  id : String
  fullId : String
  agency : String
  deriving DecidableEq

def KNOWN_DATAFLOWS : List KnownDataflow := [
  ⟨"QNA", "DSD_NAMAIN1@DF_QNA", "OECD.SDD.NAD"⟩,
  ⟨"MEI", "DSD_STES@DF_CLI", "OECD.SDD.STES"⟩,
  ⟨"HEALTH_STAT", "DSD_HEALTH_STAT@DF_PHS", "OECD.ELS.HD"⟩,
  ⟨"EAG_FIN", "DSD_EAG_UOE_FIN@DF_UOE_INDIC_FIN_PERSTUD", "OECD.EDU.IMEP"⟩,
  ⟨"AVD_DUR", "DSD_DUR@DF_AVD_DUR", "OECD.ELS.SAE"⟩,
  ⟨"TIS", "DSD_BOP@DF_TIS", "OECD.SDD.TPS"⟩,
  ⟨"FDI", "DSD_FDI@DF_FDI_CTRY_IND_SUMM", "OECD.DAF.INV"⟩,
  ⟨"GOV_2023", "DSD_GOV@DF_GOV_2023", "OECD.GOV.GIP"⟩,
  ⟨"DF_LAND_TEMP", "DSD_FUA_CLIM@DF_LAND_TEMP", "OECD.CFE.EDS"⟩,
  ⟨"DF_CLIM_PROJ", "DSD_FUA_CLIM@DF_CLIM_PROJ", "OECD.CFE.EDS"⟩,
  ⟨"DF_COASTAL_FLOOD", "DSD_FUA_CLIM@DF_COASTAL_FLOOD", "OECD.CFE.EDS"⟩,
  ⟨"DF_DROUGHT", "DSD_FUA_CLIM@DF_DROUGHT", "OECD.CFE.EDS"⟩,
  ⟨"DF_FIRES", "DSD_FUA_CLIM@DF_FIRES", "OECD.CFE.EDS"⟩,
  ⟨"DF_HEAT_STRESS", "DSD_FUA_CLIM@DF_HEAT_STRESS", "OECD.CFE.EDS"⟩,
  ⟨"DF_PRECIP", "DSD_FUA_CLIM@DF_PRECIP", "OECD.CFE.EDS"⟩,
  ⟨"DF_RIVER_FLOOD", "DSD_FUA_CLIM@DF_RIVER_FLOOD", "OECD.CFE.EDS"⟩,
  ⟨"GREEN_GROWTH", "DSD_GG@DF_GREEN_GROWTH", "OECD.ENV.EPI"⟩,
  ⟨"NAT_RES", "DSD_NAT_RES@DF_NAT_RES", "OECD.SDD.NAD.SEEA"⟩,
  ⟨"AGR_OUTLOOK", "DSD_AGR@DF_OUTLOOK_2023_2032", "OECD.TAD.ATM"⟩,
  ⟨"IDD", "DSD_WISE_IDD@DF_IDD", "OECD.WISE.INE"⟩,
  ⟨"SOCX_AGG", "DSD_SOCX_AGG@DF_SOCX_AGG", "OECD.ELS.SPD"⟩,
  ⟨"INCOME_INEQ", "DSD_REG_SOC@DF_INCOME_INEQ", "OECD.CFE.EDS"⟩,
  ⟨"DAC2A", "DSD_DAC2@DF_DAC2A", "OECD.DCD.FSD"⟩,
  ⟨"DAC3A", "DSD_DAC2@DF_DAC3A", "OECD.DCD.FSD"⟩,
  ⟨"ODF", "DSD_DAC2@DF_ODF", "OECD.DCD.FSD"⟩,
  ⟨"MSTI", "DSD_MSTI@DF_MSTI", "OECD.STI.STP"⟩,
  ⟨"PAT_DEV", "DSD_PAT_DEV@DF_PAT_DEV", "OECD.ENV.EPI"⟩,
  ⟨"ICT_IND", "DSD_ICT_HH_IND@DF_IND", "OECD.STI.DEP"⟩,
  ⟨"LFS_SEXAGE_I_R", "DSD_LFS@DF_IALFS_UNE_M", "OECD.SDD.LFS"⟩,
  ⟨"ANHRS", "DSD_ANHRS@DF_ANHRS", "OECD.SDD.LFS"⟩,
  ⟨"PDB_LV", "DSD_PDB@DF_PDB_LV", "OECD.SDD.TPS"⟩,
  ⟨"SHA", "DSD_SHA@DF_SHA", "OECD.ELS.HD"⟩,
  ⟨"HEALTH_REAC", "DSD_HEALTH_REAC@DF_ACUTE_CARE", "OECD.ELS.HD"⟩,
  ⟨"EAG_NEAC", "DSD_EAG_NEAC@DF_NEAC", "OECD.EDU.IMEP"⟩,
  ⟨"EAG_GRAD_ENTR_RATE", "DSD_EAG_GRAD_ENTR@DF_GRAD_ENTR_RATE", "OECD.EDU.IMEP"⟩,
  ⟨"REGION_ECONOM", "DSD_REG_DEMO_ECON@DF_GDP_PC", "OECD.CFE.EDS"⟩,
  ⟨"REGION_LABOUR", "DSD_REG_DEMO_ECON@DF_UNEMP_REG", "OECD.CFE.EDS"⟩,
  ⟨"HPI", "DSD_PRICES@DF_HPI", "OECD.SDD.STES"⟩,
  ⟨"RPPI", "DSD_PRICES@DF_RPPI", "OECD.ECO.MET"⟩,
  ⟨"MIG", "DSD_MIG@DF_MIG", "OECD.ELS.MIG"⟩,
  ⟨"TISP", "DSD_BTS@DF_BTS_TISP", "OECD.SDD.TPS"⟩,
  ⟨"TIVA", "DSD_TIVA@DF_TIVA_2021", "OECD.SDD.TPS"⟩]

/-- `getDataflowById` from known-dataflows.ts: `KNOWN_DATAFLOWS.find(df => df.id === id)`. -/
def getDataflowById (id : String) : Option KnownDataflow :=
  KNOWN_DATAFLOWS.find? (fun df => df.id == id)

/-! ## Client constants (sdmx-client.ts) -/

def OECD_SDMX_BASE : String := "https://sdmx.oecd.org/public/rest"

def MIN_REQUEST_INTERVAL_MS : Nat := 1500

def REQUEST_TIMEOUT_MS : Nat := 30000

def MAX_RETRIES : Nat := 3

def INITIAL_RETRY_DELAY_MS : Nat := 1000

/-! ## Filter sanitizer (`sanitizeFilter`) -/

/-- Character class of the regex `[A-Za-z0-9._\-:+*]` in `sanitizeFilter`. -/
def allowedFilterChar (c : Char) : Bool :=
  c.isAlphanum || c == '.' || c == '_' || c == '-' || c == ':' || c == '+' || c == '*'

/-- The test `/^[A-Za-z0-9._\-:+*]+$/.test(filter)`: at least one character,
all characters in the class. -/
def filterRegexMatches (s : String) : Bool :=
  !s.isEmpty && s.data.all allowedFilterChar

/-- Characters that `encodeURIComponent` leaves unescaped. -/
def uriUnreservedChar (c : Char) : Bool :=
  c.isAlphanum || c == '-' || c == '_' || c == '.' || c == '!' || c == '~' ||
    c == '*' || c == '\'' || c == '(' || c == ')'

def hexDigitChar (n : Nat) : Char :=
  if n < 10 then Char.ofNat ('0'.toNat + n) else Char.ofNat ('A'.toNat + (n - 10))

def percentEncodeByte (n : Nat) : String :=
  String.mk ['%', hexDigitChar (n / 16 % 16), hexDigitChar (n % 16)]

/-- JS `encodeURIComponent` restricted to single-byte code points.  The only
call site applies it to strings already validated against the ASCII-only
class `[A-Za-z0-9._\-:+*]`, where every code point is one UTF-8 byte. -/
def encodeURIComponent (s : String) : String :=
  String.join (s.data.map fun c =>
    if uriUnreservedChar c then String.singleton c else percentEncodeByte c.toNat)

/-! ## Error values raised by the client -/

/-- The object built by `createDetailedError`.  Optional fields are present
only for the status codes whose switch branch sets them. -/
structure FilterShapeInfo where
  format : String
  exampleStr : String
  multipleValues : String
  allValues : String
  deriving DecidableEq

structure DetailedError where
  error : String
  statusCode : Nat
  dataflowId : String
  providedFilter : String
  message : String
  suggestions : List String
  exampleCall : Option String := none
  cause : Option String := none
  retryAfter : Option String := none
  checkStatus : Option String := none
  recommendedFirstStep : Option String := none
  simpleQueryExample : Option String := none
  filterShape : Option FilterShapeInfo := none
  deriving DecidableEq

/-- The distinct error conditions thrown by the embedded client functions. -/
inductive SdmxError where
  | invalidFilter (filter : String)
  | unknownDataflow (id : String)
  | timeout (seconds : Nat)
  | apiError (details : DetailedError)
  | networkError (msg : String)
  | failedAfterRetries (maxRetries : Nat)
  deriving DecidableEq

/-- `sanitizeFilter` (sdmx-client.ts lines 572-578): a single regex test;
on failure it throws `Invalid filter format`, on success it returns
`encodeURIComponent(filter)`.  There is no emptiness-specific or maximum
length rule in the source. -/
def sanitizeFilter (filter : String) : Except SdmxError String :=
  if filterRegexMatches filter then
    .ok (encodeURIComponent filter)
  else
    .error (.invalidFilter filter)

/-! ## Rate limiter (`enforceRateLimit`)

The implementation chains every admission onto a single promise
(`this.requestQueue = this.requestQueue.then(...)`), so continuation `i+1`
starts only after admission `i` has completed.  The model makes the
schedule explicit: for each queued call, `d` is how long after the
predecessor admission the continuation gets to run (the event loop only
guarantees it is not earlier), and `slack` is the extra delay with which
`setTimeout` may overshoot the requested `delayNeeded`.  The admission
timestamp is the value stored into `lastRequestTime`. -/

def admitTimestamp (last now slack : Nat) : Nat :=
  if now - last < MIN_REQUEST_INTERVAL_MS then
    now + (MIN_REQUEST_INTERVAL_MS - (now - last)) + slack
  else
    now

/-- Timestamps recorded by a FIFO chain of admissions, given the previous
`lastRequestTime` and the schedule of (start delta, timer slack) pairs,
in call order. -/
def admitAll (last : Nat) : List (Nat × Nat) → List Nat
  | [] => []
  | (d, slack) :: rest =>
    let t := admitTimestamp last (last + d) slack
    t :: admitAll t rest

/-! ## Request executor (`fetchWithRetry`) -/

/-- What one `fetch` attempt does in the executor loop: resolve with an HTTP
status, get aborted by the 30s deadline timer (`AbortError`), or reject
with an error message. -/
inductive AttemptOutcome where
  | response (status : Nat)
  | abort
  | failure (msg : String)

def retryablePatterns : List String :=
  ["econnreset", "etimedout", "econnrefused", "enotfound", "socket hang up",
   "network", "tls", "ssl", "certificate", "getaddrinfo", "dns"]

def startsWithChars : List Char → List Char → Bool
  | _, [] => true
  | [], _ :: _ => false
  | a :: as, b :: bs => a == b && startsWithChars as bs

def occursIn (needle : List Char) : List Char → Bool
  | [] => needle.isEmpty
  | c :: cs => startsWithChars (c :: cs) needle || occursIn needle cs

/-- `isRetryableError`: the lowercased message contains one of the
retryable patterns. -/
def isRetryableError (msg : String) : Bool :=
  retryablePatterns.any fun p => occursIn p.data msg.toLower.data

instance {ε α : Type} [DecidableEq ε] [DecidableEq α] : DecidableEq (Except ε α)
  | .error a, .error b =>
    if h : a = b then isTrue (by rw [h]) else isFalse (by intro hh; cases hh; exact h rfl)
  | .error _, .ok _ => isFalse (by intro h; cases h)
  | .ok _, .error _ => isFalse (by intro h; cases h)
  | .ok a, .ok b =>
    if h : a = b then isTrue (by rw [h]) else isFalse (by intro hh; cases hh; exact h rfl)

/-- What a run of `fetchWithRetry` did: its outcome (returned response
status or thrown error), how many rate-limiter admissions it consumed
(one per attempt), and the backoff delays it inserted, in order. -/
structure FetchTrace where
  result : Except SdmxError Nat
  admissions : Nat
  delays : List Nat
  deriving DecidableEq

def backoffDelay (attempt : Nat) : Nat := INITIAL_RETRY_DELAY_MS * 2 ^ attempt

/-- The loop body of `fetchWithRetry` (sdmx-client.ts lines 511-565).
`fuel` is the number of loop iterations remaining
(`MAX_RETRIES + 1 - attempt`); the `fuel = 0` case is the
`throw lastError || Error(...)` after the loop. -/
def fetchGo (outcomes : Nat → AttemptOutcome) :
    Nat → Nat → Option SdmxError → Nat → List Nat → FetchTrace
  | 0, _, lastError, adm, delays =>
    { result := .error (lastError.getD (.failedAfterRetries MAX_RETRIES)),
      admissions := adm, delays := delays.reverse }
  | fuel + 1, attempt, lastError, adm, delays =>
    let adm := adm + 1
    match outcomes attempt with
    | .response status =>
      if 500 ≤ status ∧ attempt < MAX_RETRIES then
        fetchGo outcomes fuel (attempt + 1) lastError adm (backoffDelay attempt :: delays)
      else
        { result := .ok status, admissions := adm, delays := delays.reverse }
    | .abort =>
      if attempt < MAX_RETRIES then
        fetchGo outcomes fuel (attempt + 1) (some (.timeout (REQUEST_TIMEOUT_MS / 1000)))
          adm (backoffDelay attempt :: delays)
      else
        { result := .error (.timeout (REQUEST_TIMEOUT_MS / 1000)),
          admissions := adm, delays := delays.reverse }
    | .failure msg =>
      if isRetryableError msg ∧ attempt < MAX_RETRIES then
        fetchGo outcomes fuel (attempt + 1) (some (.networkError msg))
          adm (backoffDelay attempt :: delays)
      else
        { result := .error (.networkError msg), admissions := adm, delays := delays.reverse }

def fetchWithRetry (outcomes : Nat → AttemptOutcome) : FetchTrace :=
  fetchGo outcomes (MAX_RETRIES + 1) 0 none 0 []

/-! ## Error translation (`createDetailedError`) -/

def createDetailedError (statusCode : Nat) (dataflowId filter : String) : DetailedError :=
  let base : DetailedError :=
    { error := "OECD API request failed", statusCode := statusCode,
      dataflowId := dataflowId, providedFilter := filter,
      message := "", suggestions := [] }
  match statusCode with
  | 400 =>
    { base with
      message := "Bad request - the query syntax is invalid",
      suggestions := [
        "Check that the dataflow_id is correct",
        "Verify the filter syntax follows SDMX format: DIM1.DIM2.DIM3",
        "Use dots (.) to separate dimensions, empty position means all values"],
      exampleCall := some ("query_data(\x7bdataflow_id: \"" ++ dataflowId ++
        "\", last_n_observations: 10\x7d)") }
  | 404 =>
    { base with
      message := "Dataset or filter combination not found",
      suggestions := [
        "Verify \"" ++ dataflowId ++ "\" exists using search_dataflows or list_dataflows",
        "Check that the filter values exist in the dataset",
        "Try querying without filter first to see available data"],
      exampleCall := some ("search_dataflows(\x7bquery: \"" ++ dataflowId ++ "\"\x7d)") }
  | 422 =>
    { base with
      message := "Invalid filter format or dimension values",
      cause := some ("The filter structure does not match the dataset dimensions, or the dimension values do not exist"),
      suggestions := [
        "1. Use get_data_structure to see the dimension order for this dataset",
        "2. Ensure filter matches the exact dimension order",
        "3. Use valid country codes (ISO 3166-1 alpha-3): SWE, USA, DEU, etc.",
        "4. For multiple countries use + separator: SWE+NOR+DNK",
        "5. Empty position (..) means all values for that dimension",
        "6. Try a simpler query first with just last_n_observations"],
      filterShape := some
        { format := "DIM1.DIM2.DIM3.DIM4",
          exampleStr := "SWE.B1_GE..",
          multipleValues := "SWE+NOR+DNK.B1_GE..",
          allValues := "Use empty position (..) or omit trailing dimensions" },
      recommendedFirstStep := some ("get_data_structure(\x7bdataflow_id: \"" ++ dataflowId ++ "\"\x7d)"),
      simpleQueryExample := some ("query_data(\x7bdataflow_id: \"" ++ dataflowId ++
        "\", last_n_observations: 10\x7d)") }
  | 429 =>
    { base with
      message := "Rate limit exceeded - too many requests",
      suggestions := [
        "Wait a few seconds before retrying",
        "Reduce the frequency of API calls",
        "The server automatically enforces rate limiting between requests"],
      retryAfter := some "5 seconds" }
  | 500 =>
    { base with
      message := "OECD server error - temporary issue",
      suggestions := [
        "This is a server-side issue, not a problem with your query",
        "Wait a moment and try again",
        "If the problem persists, the OECD API may be under maintenance"],
      checkStatus := some "https://data.oecd.org/" }
  | 502 =>
    { base with
      message := "OECD server error - temporary issue",
      suggestions := [
        "This is a server-side issue, not a problem with your query",
        "Wait a moment and try again",
        "If the problem persists, the OECD API may be under maintenance"],
      checkStatus := some "https://data.oecd.org/" }
  | 503 =>
    { base with
      message := "OECD server error - temporary issue",
      suggestions := [
        "This is a server-side issue, not a problem with your query",
        "Wait a moment and try again",
        "If the problem persists, the OECD API may be under maintenance"],
      checkStatus := some "https://data.oecd.org/" }
  | _ =>
    { base with
      message := "Unexpected error from OECD API",
      suggestions := [
        "Check your query parameters",
        "Verify the dataflow_id exists",
        "Try a simpler query first"] }

/-! ## SDMX-JSON values and JavaScript runtime semantics

`Json` models the values a parsed response body can take; `Option Json`
models a possibly-`undefined` JavaScript value (`none` = `undefined`). -/

inductive Json where
  | null
  | bool (b : Bool)
  | num (n : Int)
  | str (s : String)
  | arr (elems : List Json)
  | obj (fields : List (String × Json))

/-- JS truthiness (`NaN` is not representable in this model). -/
def Json.truthy : Json → Bool
  | .null => false
  | .bool b => b
  | .num n => n != 0
  | .str s => s != ""
  | .arr _ => true
  | .obj _ => true

def jsTruthy : Option Json → Bool
  | none => false
  | some v => v.truthy

def digitsToNat (cs : List Char) : Nat :=
  cs.foldl (fun acc c => acc * 10 + (c.toNat - '0'.toNat)) 0

/-- A string that is a canonical array index (decimal, no leading zero
except `0` itself), as required for JS array index properties. -/
def canonicalNatKey (s : String) : Option Nat :=
  if s == "" then none
  else if !s.data.all Char.isDigit then none
  else if s.data.head? == some '0' && s != "0" then none
  else some (digitsToNat s.data)

/-- JS property read `v.k` on a non-nullish `v`: objects by key (first
occurrence), arrays and strings expose `length` and their indices, other
primitives have no own properties. -/
def Json.getProp : Json → String → Option Json
  | .obj fields, k => (fields.find? (fun p => p.1 == k)).map Prod.snd
  | .arr elems, k =>
    if k == "length" then some (.num elems.length)
    else match canonicalNatKey k with
      | some n => elems.get? n
      | none => none
  | .str s, k =>
    if k == "length" then some (.num s.length)
    else match canonicalNatKey k with
      | some n => (s.data.get? n).map (fun c => .str (String.singleton c))
      | none => none
  | _, _ => none

/-- JS `v.k` with the `TypeError` on a nullish base (`Except.error`). -/
def getPropE : Option Json → String → Except Unit (Option Json)
  | none, _ => .error ()
  | some .null, _ => .error ()
  | some v, k => .ok (v.getProp k)

/-- JS optional chain `v?.k`: `undefined` on a nullish base, never throws. -/
def getPropOpt : Option Json → String → Option Json
  | none, _ => none
  | some .null, _ => none
  | some v, k => v.getProp k

/-- JS index read `v[i]` for an integer index on a non-nullish `v`. -/
def Json.index (v : Json) (i : Int) : Option Json :=
  match v with
  | .arr elems => if 0 ≤ i then elems.get? i.toNat else none
  | .obj fields => (fields.find? (fun p => p.1 == toString i)).map Prod.snd
  | .str s =>
    if 0 ≤ i then (s.data.get? i.toNat).map (fun c => Json.str (String.singleton c))
    else none
  | _ => none

/-- JS `v[i]` where `v` may be `undefined` (then it throws) and the index
may be `NaN` (`parseInt` failure, modelled `none`: the lookup of property
"NaN" yields `undefined` on the shapes reachable here). -/
def indexE : Option Json → Option Int → Except Unit (Option Json)
  | none, _ => .error ()
  | some .null, _ => .error ()
  | some v, some i => .ok (v.index i)
  | some _, none => .ok none

/-- JS `x || y` where `x` may be `undefined`. -/
def jsOrJ (x : Option Json) (y : Json) : Json :=
  match x with
  | some v => if v.truthy then v else y
  | none => y

/-- JS `x || y` on possibly-`undefined` values, as used for `v.name || v.id`. -/
def jsOrO (x y : Option Json) : Option Json :=
  match x with
  | some v => if v.truthy then some v else y
  | none => y

/-- `Object.entries(v)` for non-null `v` (every call site guards with
`|| \x7b\x7d`): objects give their own entries, arrays index/value pairs,
strings index/character pairs, other primitives have no entries. -/
def jsEntries : Json → List (String × Json)
  | .obj fields => fields
  | .arr elems => elems.enum.map (fun p => (toString p.1, p.2))
  | .str s => s.data.enum.map (fun p => (toString p.1, Json.str (String.singleton p.2)))
  | _ => []

/-- JS `for (const x of v)`: arrays and strings are iterable, everything
else throws `TypeError`. -/
def jsIterate : Json → Except Unit (List Json)
  | .arr elems => .ok elems
  | .str s => .ok (s.data.map (fun c => Json.str (String.singleton c)))
  | _ => .error ()

def leadingDigits (cs : List Char) : List Char := cs.takeWhile Char.isDigit

/-- JS `parseInt(s, 10)`: skip leading spaces, optional sign, then the
longest digit prefix; `none` models `NaN` (no digits). -/
def parseJsInt (s : String) : Option Int :=
  let cs := s.data.dropWhile (fun c => c == ' ')
  match cs with
  | '-' :: rest =>
    if leadingDigits rest = [] then none else some (-(digitsToNat (leadingDigits rest) : Int))
  | '+' :: rest =>
    if leadingDigits rest = [] then none else some (digitsToNat (leadingDigits rest) : Int)
  | _ =>
    if leadingDigits cs = [] then none else some (digitsToNat (leadingDigits cs) : Int)

/-- JS coercion of a value to an object-property key string, for
`dimensions[dimension.id] = ...` (nested arrays approximated one level). -/
def jsKeyString : Option Json → String
  | none => "undefined"
  | some .null => "null"
  | some (.bool b) => if b then "true" else "false"
  | some (.num n) => toString n
  | some (.str s) => s
  | some (.obj _) => "[object Object]"
  | some (.arr elems) =>
    String.intercalate "," (elems.map fun e =>
      match e with
      | .str s => s
      | .num n => toString n
      | .bool b => if b then "true" else "false"
      | .null => ""
      | _ => "")

/-- JS object-key assignment `m[k] = v`: overwrite in place if the key
exists, else append. -/
def recInsert (m : List (String × Json)) (k : String) (v : Json) : List (String × Json) :=
  if m.any (fun p => p.1 == k) then
    m.map (fun p => if p.1 == k then (k, v) else p)
  else
    m ++ [(k, v)]

/-- JS spread `\x7b...a, ...b\x7d` for objects whose keys are already
unique in insertion order. -/
def recSpread (a b : List (String × Json)) : List (String × Json) :=
  b.foldl (fun m p => recInsert m p.1 p.2) a

/-! ## Dimension metadata extraction (`extractDimensionMetadata`) -/

def jsGtZero : Option Json → Bool
  | some (.num n) => 0 < n
  | _ => false

/-- `extractDimensionMetadata`: try `data?.data?.structures` (new format,
guarded by `structures.length > 0 && structures[0]?.dimensions`), then the
legacy `data?.structure?.dimensions` shape, else empty.  Returns the raw
`(seriesDimensions, observationDimensions)` values. -/
def extractDimensionMetadata (data : Json) : Json × Json :=
  let structures := jsOrJ (getPropOpt (getPropOpt (some data) "data") "structures")
    (jsOrJ (getPropOpt (getPropOpt (some data) "structure") "dimensions") (.arr []))
  if jsGtZero (structures.getProp "length") &&
      jsTruthy (getPropOpt (structures.index 0) "dimensions") then
    let dims := jsOrJ (getPropOpt (structures.index 0) "dimensions") (.obj [])
    (jsOrJ (dims.getProp "series") (.arr []), jsOrJ (dims.getProp "observation") (.arr []))
  else
    let altStructure := getPropOpt (getPropOpt (some data) "structure") "dimensions"
    if jsTruthy altStructure then
      (jsOrJ (getPropOpt altStructure "series") (.arr []),
       jsOrJ (getPropOpt altStructure "observation") (.arr []))
    else
      (.arr [], .arr [])

/-! ## Series-key and observation-key decoding
(`parseSeriesKeyWithMetadata`, `mapObservationDimension`) -/

def splitOnCharGo (sep : Char) : List Char → List Char → List String
  | [], cur => [String.mk cur]
  | c :: cs, cur =>
    if c == sep then String.mk cur :: splitOnCharGo sep cs []
    else splitOnCharGo sep cs (cur ++ [c])

/-- JS `key.split(sep)` for a one-character separator; the empty string
splits to `[""]`, like `"".split(":")`. -/
def jsSplit (sep : Char) (s : String) : List String := splitOnCharGo sep s.data []

/-- The `forEach` body of `parseSeriesKeyWithMetadata` at one position:
given the raw `seriesDimensions` value, the position `dimIndex` and the
colon-separated part `valueIndex`, produce the key/value pair assigned
into the dimensions record.  Throws when `dimension.values` is nullish. -/
def seriesKeyAssign (seriesDimensions : Json) (dimIndex : Nat) (valueIndex : String) :
    Except Unit (String × Json) :=
  match seriesDimensions.index dimIndex with
  | some d =>
    if d.truthy then
      match indexE (d.getProp "values") (parseJsInt valueIndex) with
      | .error _ => .error ()
      | .ok valueObj =>
        .ok (jsKeyString (d.getProp "id"), jsOrJ (getPropOpt valueObj "id") (.str valueIndex))
    else
      .ok ("DIM_" ++ toString dimIndex, .str valueIndex)
  | none => .ok ("DIM_" ++ toString dimIndex, .str valueIndex)

/-- `parseSeriesKeyWithMetadata`: split the series key on `:` and apply
the assignment body to every position in order. -/
def parseSeriesKeyWithMetadata (key : String) (seriesDimensions : Json) :
    Except Unit (List (String × Json)) :=
  (jsSplit ':' key).enum.foldlM (fun m p => do
    let a ← seriesKeyAssign seriesDimensions p.1 p.2
    pure (recInsert m a.1 a.2)) []

/-- `mapObservationDimension`: resolve the observation key against
`observationDimensions[0]` when that is truthy, else fall back to the
fixed key `TIME_PERIOD` with the raw observation key. -/
def mapObservationDimension (obsKey : String) (observationDimensions : Json) :
    Except Unit (List (String × Json)) :=
  match observationDimensions.index 0 with
  | some d =>
    if d.truthy then
      match indexE (d.getProp "values") (parseJsInt obsKey) with
      | .error _ => .error ()
      | .ok valueObj =>
        .ok [(jsKeyString (d.getProp "id"), jsOrJ (getPropOpt valueObj "id") (.str obsKey))]
    else
      .ok [("TIME_PERIOD", .str obsKey)]
  | none => .ok [("TIME_PERIOD", .str obsKey)]

/-! ## Response decoder (`parseDataObservations`) -/

structure SDMXObservation where
  dimensions : List (String × Json)
  value : Option Json

/-- The guard `clientSideLimit && observations.length >= clientSideLimit`:
a limit of `0` (or an absent one) is falsy and never stops decoding. -/
def limitActive (limit : Option Nat) (count : Nat) : Bool :=
  match limit with
  | some l => l != 0 && decide (l ≤ count)
  | none => false

/-- One observation entry: unwrap the value (`obsValue[0]` when it is an
array, else the bare scalar) and resolve the observation dimension. -/
def obsRecord (seriesDims : List (String × Json)) (observationDimensions : Json)
    (obsKey : String) (obsValue : Json) : Except Unit SDMXObservation := do
  let value : Option Json :=
    match obsValue with
    | .arr elems => elems.head?
    | v => some v
  let timeDimension ← mapObservationDimension obsKey observationDimensions
  pure { dimensions := recSpread seriesDims timeDimension, value := value }

/-- Control flow of the nested loops: an early `return observations`
(`ret`), normal loop completion (`cont`), or a thrown exception. -/
inductive LoopOut where
  | ret (l : List SDMXObservation)
  | cont (l : List SDMXObservation)
  | thrown

/-- The inner `for (const [obsKey, obsValue] of Object.entries(obs))`
loop, with the client-side limit check before each push. -/
def obsLoop (limit : Option Nat) (seriesDims : List (String × Json)) (odims : Json) :
    List SDMXObservation → List (String × Json) → LoopOut
  | acc, [] => .cont acc
  | acc, (obsKey, obsValue) :: rest =>
    if limitActive limit acc.length then .ret acc
    else
      match obsRecord seriesDims odims obsKey obsValue with
      | .error _ => .thrown
      | .ok r => obsLoop limit seriesDims odims (acc ++ [r]) rest

/-- The middle `for (const [seriesKey, seriesData] of Object.entries(series))`
loop: decode the series key, read `seriesData.observations || \x7b\x7d`,
run the observation loop. -/
def seriesLoop (limit : Option Nat) (sdims odims : Json) :
    List SDMXObservation → List (String × Json) → LoopOut
  | acc, [] => .cont acc
  | acc, (seriesKey, seriesData) :: rest =>
    match parseSeriesKeyWithMetadata seriesKey sdims with
    | .error _ => .thrown
    | .ok dims =>
      match getPropE (some seriesData) "observations" with
      | .error _ => .thrown
      | .ok obsProp =>
        match obsLoop limit dims odims acc (jsEntries (jsOrJ obsProp (.obj []))) with
        | .ret l => .ret l
        | .thrown => .thrown
        | .cont acc2 => seriesLoop limit sdims odims acc2 rest

/-- The outer `for (const dataset of datasets)` loop: read
`dataset.series || \x7b\x7d` and run the series loop. -/
def datasetLoop (limit : Option Nat) (sdims odims : Json) :
    List SDMXObservation → List Json → LoopOut
  | acc, [] => .cont acc
  | acc, dataset :: rest =>
    match getPropE (some dataset) "series" with
    | .error _ => .thrown
    | .ok seriesProp =>
      match seriesLoop limit sdims odims acc (jsEntries (jsOrJ seriesProp (.obj []))) with
      | .ret l => .ret l
      | .thrown => .thrown
      | .cont acc2 => datasetLoop limit sdims odims acc2 rest

/-- The body of `parseDataObservations` up to the `catch`: `none` models a
thrown exception reaching the handler. -/
def parseRun (data : Json) (limit : Option Nat) : Option (List SDMXObservation) :=
  let datasets := jsOrJ (getPropOpt (getPropOpt (some data) "data") "dataSets") (.arr [])
  match jsIterate datasets with
  | .error _ => none
  | .ok ds =>
    let meta := extractDimensionMetadata data
    match datasetLoop limit meta.1 meta.2 [] ds with
    | .ret l => some l
    | .cont l => some l
    | .thrown => none

/-- `parseDataObservations` (sdmx-client.ts lines 948-992): the whole body
is wrapped in `try ... catch` returning `[]`. -/
def parseDataObservations (data : Json) (limit : Option Nat) : List SDMXObservation :=
  (parseRun data limit).getD []

/-! ### Denotations of the decoding loops

Limit-free descriptions of what each loop contributes, used to relate the
limited and unlimited runs of `parseDataObservations`. -/

/-- The records one observation-entry list denotes (no limit). -/
def obsDenote (sd : List (String × Json)) (od : Json) :
    List (String × Json) → Except Unit (List SDMXObservation)
  | [] => .ok []
  | (k, v) :: rest =>
    match obsRecord sd od k v with
    | .error e => .error e
    | .ok r =>
      match obsDenote sd od rest with
      | .error e => .error e
      | .ok rs => .ok (r :: rs)

/-- The records one series entry denotes. -/
def seriesDenoteOne (sdims odims : Json) (k : String) (v : Json) :
    Except Unit (List SDMXObservation) :=
  match parseSeriesKeyWithMetadata k sdims with
  | .error e => .error e
  | .ok dims =>
    match getPropE (some v) "observations" with
    | .error e => .error e
    | .ok obsProp => obsDenote dims odims (jsEntries (jsOrJ obsProp (.obj [])))

/-- The records a series-entry list denotes. -/
def seriesDenote (sdims odims : Json) :
    List (String × Json) → Except Unit (List SDMXObservation)
  | [] => .ok []
  | (k, v) :: rest =>
    match seriesDenoteOne sdims odims k v with
    | .error e => .error e
    | .ok r1 =>
      match seriesDenote sdims odims rest with
      | .error e => .error e
      | .ok rs => .ok (r1 ++ rs)

/-- The records one dataset denotes. -/
def datasetDenoteOne (sdims odims : Json) (dataset : Json) :
    Except Unit (List SDMXObservation) :=
  match getPropE (some dataset) "series" with
  | .error e => .error e
  | .ok seriesProp => seriesDenote sdims odims (jsEntries (jsOrJ seriesProp (.obj [])))

/-- The records a dataset list denotes. -/
def datasetDenote (sdims odims : Json) : List Json → Except Unit (List SDMXObservation)
  | [] => .ok []
  | dataset :: rest =>
    match datasetDenoteOne sdims odims dataset with
    | .error e => .error e
    | .ok r1 =>
      match datasetDenote sdims odims rest with
      | .error e => .error e
      | .ok rs => .ok (r1 ++ rs)

/-! ## Structure parsing (`parseDataStructure`, `extractAttributes`,
`getFallbackStructure`) -/

/-- One entry of the `allDimensions` array built by `parseDataStructure`:
the raw `id`/`name` values and the `(id, name || id)` pairs of the sliced
value list. -/
structure DimOut where
  id : Option Json
  name : Option Json
  values : List (Option Json × Option Json)

structure AttrOut where
  id : Option Json
  name : Option Json

structure SDMXDataStructure where
  dataflowId : String
  dimensions : List DimOut
  attributes : List AttrOut

/-- `(v.id, v.name || v.id)` for one element of a dimension value list;
throws on a nullish element. -/
def dimValueOut (v : Json) : Except Unit (Option Json × Option Json) := do
  let vid ← getPropE (some v) "id"
  let vname ← getPropE (some v) "name"
  pure (vid, jsOrO vname vid)

/-- `(dim.values || []).slice(0, n).map(...)`: `.slice` then `.map`
require an array (a truthy non-array value makes the chain throw). -/
def sliceMapValues (n : Nat) (valuesJ : Json) : Except Unit (List (Option Json × Option Json)) :=
  match valuesJ with
  | .arr elems => (elems.take n).mapM dimValueOut
  | _ => .error ()

/-- One iteration of the `for (const dim of ...)` loops in
`parseDataStructure`, slicing the first `n` values (50 for series
dimensions, 20 for observation dimensions). -/
def dimOut (n : Nat) (dim : Json) : Except Unit DimOut := do
  let did ← getPropE (some dim) "id"
  let dname ← getPropE (some dim) "name"
  let valuesProp ← getPropE (some dim) "values"
  let vals ← sliceMapValues n (jsOrJ valuesProp (.arr []))
  pure ⟨did, dname, vals⟩

/-- `(a.id, a.name || a.id)` for one attribute element. -/
def attrOut (a : Json) : Except Unit AttrOut := do
  let aid ← getPropE (some a) "id"
  let aname ← getPropE (some a) "name"
  pure ⟨aid, jsOrO aname aid⟩

/-- `extractAttributes` (sdmx-client.ts lines 673-698). -/
def extractAttributes (data : Json) : Except Unit (List AttrOut) :=
  let structures := jsOrJ (getPropOpt (getPropOpt (some data) "data") "structures") (.arr [])
  if jsGtZero (structures.getProp "length") &&
      jsTruthy (getPropOpt (structures.index 0) "attributes") then do
    let attrs := jsOrJ (getPropOpt (structures.index 0) "attributes") (.obj [])
    let sList ← jsIterate (jsOrJ (attrs.getProp "series") (.arr []))
    let oList ← jsIterate (jsOrJ (attrs.getProp "observation") (.arr []))
    (sList ++ oList).mapM attrOut
  else
    let altAttrs := getPropOpt (getPropOpt (some data) "structure") "attributes"
    if jsTruthy altAttrs then do
      let alt := jsOrJ altAttrs (.obj [])
      let sList ← jsIterate (jsOrJ (alt.getProp "series") (.arr []))
      let oList ← jsIterate (jsOrJ (alt.getProp "observation") (.arr []))
      (sList ++ oList).mapM attrOut
    else
      .ok [⟨some (.str "UNIT_MEASURE"), some (.str "Unit of Measure")⟩,
           ⟨some (.str "OBS_STATUS"), some (.str "Observation Status")⟩]

/-- `getFallbackStructure` (sdmx-client.ts lines 703-736). -/
def getFallbackStructure (dataflowId : String) : SDMXDataStructure :=
  { dataflowId := dataflowId,
    dimensions := [
      ⟨some (.str "REF_AREA"), some (.str "Reference Area"),
        [(some (.str "SWE"), some (.str "Sweden")),
         (some (.str "USA"), some (.str "United States")),
         (some (.str "DEU"), some (.str "Germany")),
         (some (.str "GBR"), some (.str "United Kingdom")),
         (some (.str "FRA"), some (.str "France")),
         (some (.str "JPN"), some (.str "Japan")),
         (some (.str "OECD"), some (.str "OECD Total"))]⟩,
      ⟨some (.str "TIME_PERIOD"), some (.str "Time Period"),
        [(some (.str "varies"),
          some (.str "Time dimension (use start_period/end_period parameters)"))]⟩,
      ⟨some (.str "MEASURE"), some (.str "Measure"),
        [(some (.str "varies"),
          some (.str "See dataset documentation for available measures"))]⟩],
    attributes := [⟨some (.str "UNIT_MEASURE"), some (.str "Unit of Measure")⟩,
                   ⟨some (.str "OBS_STATUS"), some (.str "Observation Status")⟩] }

/-- `parseDataStructure` (sdmx-client.ts lines 632-668). -/
def parseDataStructure (dataflowId : String) (data : Json) : Except Unit SDMXDataStructure := do
  let meta := extractDimensionMetadata data
  let sList ← jsIterate meta.1
  let sOut ← sList.mapM (dimOut 50)
  let oList ← jsIterate meta.2
  let oOut ← oList.mapM (dimOut 20)
  let allDimensions := sOut ++ oOut
  let attributes ← extractAttributes data
  pure { dataflowId := dataflowId,
         dimensions := if allDimensions.length > 0 then allDimensions
                       else (getFallbackStructure dataflowId).dimensions,
         attributes := attributes }

/-! ## Query facade (`queryData`, `getDataStructure`) -/

structure QueryOptions where
  startPeriod : Option String := none
  endPeriod : Option String := none
  lastNObservations : Option Nat := none

/-- The `URLSearchParams` built by `queryData`: each optional parameter is
appended only when truthy (a `0` limit and an empty period string are
falsy in JS and are skipped). -/
def queryParams (options : QueryOptions) : List (String × String) :=
  [("format", "jsondata")]
  ++ (match options.startPeriod with
      | some s => if s != "" then [("startPeriod", s)] else []
      | none => [])
  ++ (match options.endPeriod with
      | some s => if s != "" then [("endPeriod", s)] else []
      | none => [])
  ++ (match options.lastNObservations with
      | some n => if n != 0 then [("lastNObservations", toString n)] else []
      | none => [])

def renderParams (params : List (String × String)) : String :=
  String.intercalate "&" (params.map fun p => p.1 ++ "=" ++ p.2)

/-- Externally observable side effects of one facade call: how many times
the sanitizer ran, how many rate-limiter admissions were consumed, how
many network attempts were issued, and the request URL if one was built. -/
structure QueryEffects where
  sanitizeCalls : Nat
  admissions : Nat
  networkAttempts : Nat
  url : Option String := none

def zeroEffects : QueryEffects := ⟨0, 0, 0, none⟩

/-- `queryData` (sdmx-client.ts lines 743-793): resolve the id against the
catalog, build the query parameters, sanitize the filter (skipped for the
literal `all`), execute with retry, translate a non-ok status through
`createDetailedError`, and decode the payload with the client-side limit.
`outcomes` gives each network attempt its outcome and `payload` the parsed
body of a successful response. -/
def queryData (dataflowId filter : String) (options : QueryOptions)
    (outcomes : Nat → AttemptOutcome) (payload : Json) :
    Except SdmxError (List SDMXObservation) × QueryEffects :=
  match getDataflowById dataflowId with
  | none => (.error (.unknownDataflow dataflowId), zeroEffects)
  | some knownDf =>
    let params := queryParams options
    let sanitizeCalls := if filter == "all" then 0 else 1
    match (if filter == "all" then Except.ok "all" else sanitizeFilter filter) with
    | .error e => (.error e, { zeroEffects with sanitizeCalls := sanitizeCalls })
    | .ok sanitizedFilter =>
      let url := OECD_SDMX_BASE ++ "/data/" ++ knownDf.agency ++ "," ++ knownDf.fullId ++
        "/" ++ sanitizedFilter ++ "?" ++ renderParams params
      let trace := fetchWithRetry outcomes
      let effects : QueryEffects :=
        { sanitizeCalls := sanitizeCalls, admissions := trace.admissions,
          networkAttempts := trace.admissions, url := some url }
      match trace.result with
      | .error e => (.error e, effects)
      | .ok status =>
        if 200 ≤ status ∧ status < 300 then
          (.ok (parseDataObservations payload options.lastNObservations), effects)
        else
          (.error (.apiError (createDetailedError status dataflowId filter)), effects)

/-- `getDataStructure` (sdmx-client.ts lines 593-627): resolve the id
first (the unknown-dataflow throw is outside the `try`), then fetch a
one-observation sample and parse it, falling back to the static structure
on any failure inside the `try`. -/
def getDataStructure (dataflowId : String) (outcomes : Nat → AttemptOutcome)
    (payload : Json) : Except SdmxError SDMXDataStructure × QueryEffects :=
  match getDataflowById dataflowId with
  | none => (.error (.unknownDataflow dataflowId), zeroEffects)
  | some knownDf =>
    let url := OECD_SDMX_BASE ++ "/data/" ++ knownDf.agency ++ "," ++ knownDf.fullId ++
      "/all?" ++ renderParams [("format", "jsondata"), ("lastNObservations", "1")]
    let trace := fetchWithRetry outcomes
    let effects : QueryEffects :=
      { sanitizeCalls := 0, admissions := trace.admissions,
        networkAttempts := trace.admissions, url := some url }
    match trace.result with
    | .error _ => (.ok (getFallbackStructure dataflowId), effects)
    | .ok status =>
      if 200 ≤ status ∧ status < 300 then
        match parseDataStructure dataflowId payload with
        | .ok s => (.ok s, effects)
        | .error _ => (.ok (getFallbackStructure dataflowId), effects)
      else
        (.ok (getFallbackStructure dataflowId), effects)

/-! ## Concrete inputs used in the theorems below -/

/-- A 201-character filter: longer than the 200-character maximum that the
test suite expects the sanitizer to reject. -/
def longFilter : String := String.mk (List.replicate 201 'A')

/-- A remote that answers 500 on the first two attempts and 200 afterwards. -/
def outcomesTwo500 : Nat → AttemptOutcome
  | 0 => .response 500
  | 1 => .response 500
  | _ => .response 200

/-- A remote that always answers with one fixed status. -/
def oneShot (status : Nat) : Nat → AttemptOutcome := fun _ => .response status

/-- A payload whose `series` value is the number 5 (non-object). -/
def malformedSeriesPayload : Json :=
  .obj [("data", .obj [("dataSets", .arr [.obj [("series", .num 5)]])])]

/-- A payload whose single series entry has no `observations` field. -/
def missingObsPayload : Json :=
  .obj [("data", .obj [("dataSets", .arr [.obj [("series",
    .obj [("0:0", .obj [])])]])])]

/-- 200 observation entries keyed `0` to `199`. -/
def obsEntries200 : List (String × Json) :=
  (List.range 200).map (fun i => (toString i, Json.num i))

/-- A payload with one dataset, one series and 200 raw observations. -/
def payload200 : Json :=
  .obj [("data", .obj [("dataSets", .arr [.obj [("series",
    .obj [("0", .obj [("observations", .obj obsEntries200)])])]])])]

/-- Series dimension metadata with one dimension `FOO` whose coded value
list is empty, so that index 5 is out of range. -/
def dimsFOO : Json :=
  .arr [.obj [("id", .str "FOO"), ("name", .str "Foo"), ("values", .arr [])]]

/-- Series dimension metadata with one dimension `REF` whose coded value
list has the single entry `USA`. -/
def dimsREF : Json :=
  .arr [.obj [("id", .str "REF"), ("values", .arr [.obj [("id", .str "USA")]])]]

/-! # Theorems -/

/-- C2: for every sequence of admissions on one rate-limiter instance,
processed in FIFO call order by the promise chain, the recorded admission
timestamps are spaced at least `MIN_REQUEST_INTERVAL_MS` (1500 ms) apart
for every adjacent pair and are strictly increasing in call order, for
every scheduling of continuation starts and timer overshoots. -/
theorem rate_limiter_fifo_spacing (last : Nat) (sched : List (Nat × Nat)) :
    List.Chain' (fun a b => a + MIN_REQUEST_INTERVAL_MS ≤ b) (admitAll last sched) ∧
    List.Pairwise (· < ·) (admitAll last sched) := by
  have hstep : ∀ last d slack : Nat,
      last + MIN_REQUEST_INTERVAL_MS ≤ admitTimestamp last (last + d) slack := by
    intro last d slack
    unfold admitTimestamp
    split <;> omega
  have hchainFrom : ∀ (sched : List (Nat × Nat)) (last : Nat),
      List.Chain (fun a b => a + MIN_REQUEST_INTERVAL_MS ≤ b) last (admitAll last sched) := by
    intro sched
    induction sched with
    | nil => intro last; exact List.Chain.nil
    | cons p rest ih =>
      intro last
      obtain ⟨d, slack⟩ := p
      exact List.Chain.cons (hstep last d slack) (ih _)
  have hchain : List.Chain' (fun a b => a + MIN_REQUEST_INTERVAL_MS ≤ b) (admitAll last sched) := by
    cases sched with
    | nil => exact trivial
    | cons p rest =>
      obtain ⟨d, slack⟩ := p
      exact hchainFrom rest (admitTimestamp last (last + d) slack)
  refine ⟨hchain, ?_⟩
  haveI : IsTrans Nat (fun a b => a + MIN_REQUEST_INTERVAL_MS ≤ b) :=
    ⟨fun a b c h1 h2 => by
      have hmin : 0 < MIN_REQUEST_INTERVAL_MS := by decide
      omega⟩
  exact (List.chain'_iff_pairwise.mp hchain).imp
    (fun h => lt_of_lt_of_le (Nat.lt_add_of_pos_right (by decide)) h)

/-- C3: against a remote that returns 500 twice and then 200,
`fetchWithRetry` succeeds with status 200, consumes exactly 3 rate-limiter
admissions (one per attempt, retries included), and inserts exactly the
two backoff delays `initialDelay * 2^attempt` = 1s then 2s. -/
theorem retry_two_500_then_200 :
    fetchWithRetry outcomesTwo500 =
      { result := .ok 200, admissions := 3,
        delays := [INITIAL_RETRY_DELAY_MS * 2 ^ 0, INITIAL_RETRY_DELAY_MS * 2 ^ 1] } ∧
    INITIAL_RETRY_DELAY_MS * 2 ^ 0 = 1000 ∧ INITIAL_RETRY_DELAY_MS * 2 ^ 1 = 2000 := by
  decide

/-- C4: against a remote that never resolves, every attempt is aborted by
the fixed 30-second deadline and classified as a timeout; the executor
makes exactly `MAX_RETRIES + 1 = 4` calls and then raises the timeout
condition (the last observed error). -/
theorem retry_timeout_exhausts :
    fetchWithRetry (fun _ => .abort) =
      { result := .error (.timeout 30), admissions := 4, delays := [1000, 2000, 4000] } ∧
    MAX_RETRIES + 1 = 4 ∧ REQUEST_TIMEOUT_MS = 30000 ∧ REQUEST_TIMEOUT_MS / 1000 = 30 := by
  decide

set_option maxRecDepth 4000 in
/-- C1 evaluation: `sanitizeFilter` does reject the empty string and
strings with characters outside the class, before any network action
(zero admissions in the query effects), but it has no maximum-length rule:
the 201-character filter is accepted and returned percent-encoded
(unchanged, as `A` is unreserved), although the repository test suite
expects it to be rejected with `exceeds maximum length`. -/
theorem sanitize_has_no_length_rule :
    longFilter.length = 201 ∧
    sanitizeFilter longFilter = .ok longFilter ∧
    sanitizeFilter "" = .error (.invalidFilter "") ∧
    sanitizeFilter "USA;rm -rf /" = .error (.invalidFilter "USA;rm -rf /") ∧
    sanitizeFilter "USA.GDP" = .ok "USA.GDP" ∧
    queryData "QNA" "USA;x" {} (oneShot 200) Json.null =
      (.error (.invalidFilter "USA;x"), { zeroEffects with sanitizeCalls := 1 }) := by
  refine ⟨by decide, by decide, by decide, by decide, by decide, rfl⟩

/-- C9: an id absent from the catalog makes both `queryData` and
`getDataStructure` fail with the unknown-dataflow condition while
performing zero sanitizer calls, zero rate-limiter admissions and zero
network attempts: catalog resolution is the first step. -/
theorem unknown_dataset_fails_fast (id filter : String) (opts : QueryOptions)
    (outcomes : Nat → AttemptOutcome) (payload : Json)
    (h : getDataflowById id = none) :
    queryData id filter opts outcomes payload = (.error (.unknownDataflow id), zeroEffects) ∧
    getDataStructure id outcomes payload = (.error (.unknownDataflow id), zeroEffects) := by
  unfold queryData getDataStructure
  rw [h]
  exact ⟨rfl, rfl⟩

/-- Witness for C9 at the concrete id `UNKNOWN_ID`. -/
theorem unknown_dataset_fails_fast_witness :
    getDataflowById "UNKNOWN_ID" = none ∧
    queryData "UNKNOWN_ID" "all" {} (oneShot 200) Json.null =
      (.error (.unknownDataflow "UNKNOWN_ID"), zeroEffects) := by
  have h : getDataflowById "UNKNOWN_ID" = none := by decide
  exact ⟨h, (unknown_dataset_fails_fast "UNKNOWN_ID" "all" {} (oneShot 200) Json.null h).1⟩

/-- C5: a 4xx status is returned by `fetchWithRetry` after a single
attempt (one admission, no backoff delays, no retries consumed), and
`queryData` turns it into the structured `createDetailedError` diagnostic
for that status — an object keyed by the status code, with a nonempty
status-specific suggestion list and distinct messages for 400, 404, 422
and 429 — never the raw response. -/
theorem client_error_no_retry (s : Nat) (h4 : 400 ≤ s) (h5 : s < 500) :
    (fetchWithRetry (oneShot s)).result = .ok s ∧
    (fetchWithRetry (oneShot s)).admissions = 1 ∧
    (fetchWithRetry (oneShot s)).delays = [] ∧
    (∀ dfId opts payload df, getDataflowById dfId = some df →
      (queryData dfId "all" opts (oneShot s) payload).1 =
        .error (.apiError (createDetailedError s dfId "all")) ∧
      (queryData dfId "all" opts (oneShot s) payload).2.admissions = 1) ∧
    (∀ d f, (createDetailedError s d f).statusCode = s ∧
            (createDetailedError s d f).suggestions ≠ []) ∧
    (∀ d f, (createDetailedError 400 d f).message ≠ (createDetailedError 404 d f).message ∧
            (createDetailedError 400 d f).message ≠ (createDetailedError 422 d f).message ∧
            (createDetailedError 400 d f).message ≠ (createDetailedError 429 d f).message ∧
            (createDetailedError 404 d f).message ≠ (createDetailedError 422 d f).message ∧
            (createDetailedError 404 d f).message ≠ (createDetailedError 429 d f).message ∧
            (createDetailedError 422 d f).message ≠ (createDetailedError 429 d f).message) := by
  have hcond : ¬(500 ≤ s ∧ 0 < MAX_RETRIES) := by
    intro ⟨hc, _⟩; omega
  have htrace : fetchWithRetry (oneShot s) =
      { result := .ok s, admissions := 1, delays := [] } := by
    show fetchGo (oneShot s) (MAX_RETRIES + 1) 0 none 0 [] = _
    rw [show MAX_RETRIES + 1 = 3 + 1 from rfl]
    unfold fetchGo
    simp only [oneShot, if_neg hcond]
    rfl
  refine ⟨by rw [htrace], by rw [htrace], by rw [htrace], ?_, ?_, ?_⟩
  · intro dfId opts payload df hdf
    have hnot : ¬(200 ≤ s ∧ s < 300) := by intro ⟨_, hc⟩; omega
    unfold queryData
    rw [hdf]
    simp only [htrace, if_neg hnot]
    exact ⟨rfl, rfl⟩
  · intro d f
    constructor
    · unfold createDetailedError
      split <;> rfl
    · unfold createDetailedError
      split <;> simp
  · intro d f
    refine ⟨?_, ?_, ?_, ?_, ?_, ?_⟩
    · show "Bad request - the query syntax is invalid" ≠
        "Dataset or filter combination not found"
      decide
    · show "Bad request - the query syntax is invalid" ≠
        "Invalid filter format or dimension values"
      decide
    · show "Bad request - the query syntax is invalid" ≠
        "Rate limit exceeded - too many requests"
      decide
    · show "Dataset or filter combination not found" ≠
        "Invalid filter format or dimension values"
      decide
    · show "Dataset or filter combination not found" ≠
        "Rate limit exceeded - too many requests"
      decide
    · show "Invalid filter format or dimension values" ≠
        "Rate limit exceeded - too many requests"
      decide

/-- Witness for C5 at status 404 and dataset `QNA`. -/
theorem client_error_no_retry_witness :
    (400 ≤ 404 ∧ 404 < 500) ∧
    (fetchWithRetry (oneShot 404)).admissions = 1 ∧
    (queryData "QNA" "all" {} (oneShot 404) Json.null).1 =
      .error (.apiError (createDetailedError 404 "QNA" "all")) := by
  refine ⟨by decide, (client_error_no_retry 404 (by decide) (by decide)).2.1, ?_⟩
  exact ((client_error_no_retry 404 (by decide) (by decide)).2.2.2.1 "QNA" {} Json.null
    ⟨"QNA", "DSD_NAMAIN1@DF_QNA", "OECD.SDD.NAD"⟩ (by decide)).1

/-- C7: decoding degrades to an empty result instead of raising on every
malformed payload shape: a null payload, a payload without `data`, one
without `dataSets`, a non-object `series` value, and a series entry
without `observations` — for every client-side limit. -/
theorem decode_malformed_yields_empty (L : Option Nat) :
    parseDataObservations Json.null L = [] ∧
    parseDataObservations (.obj []) L = [] ∧
    parseDataObservations (.obj [("data", .obj [])]) L = [] ∧
    parseDataObservations malformedSeriesPayload L = [] ∧
    parseDataObservations missingObsPayload L = [] :=
  ⟨rfl, rfl, rfl, rfl, rfl⟩

/-- The limit guard with a limit of `0` behaves like an absent limit. -/
theorem obsLoop_zero_limit (sd : List (String × Json)) (od : Json) :
    ∀ entries acc, obsLoop (some 0) sd od acc entries = obsLoop none sd od acc entries := by
  intro entries
  induction entries with
  | nil => intro acc; rfl
  | cons e rest ih =>
    intro acc
    obtain ⟨k, v⟩ := e
    show (match obsRecord sd od k v with
          | .error _ => LoopOut.thrown
          | .ok r => obsLoop (some 0) sd od (acc ++ [r]) rest) =
         (match obsRecord sd od k v with
          | .error _ => LoopOut.thrown
          | .ok r => obsLoop none sd od (acc ++ [r]) rest)
    cases obsRecord sd od k v with
    | error err => rfl
    | ok r => exact ih _

theorem seriesLoop_zero_limit (sdims odims : Json) :
    ∀ entries acc, seriesLoop (some 0) sdims odims acc entries =
      seriesLoop none sdims odims acc entries := by
  intro entries
  induction entries with
  | nil => intro acc; rfl
  | cons e rest ih =>
    intro acc
    obtain ⟨k, v⟩ := e
    simp only [seriesLoop, obsLoop_zero_limit, ih]

theorem datasetLoop_zero_limit (sdims odims : Json) :
    ∀ ds acc, datasetLoop (some 0) sdims odims acc ds =
      datasetLoop none sdims odims acc ds := by
  intro ds
  induction ds with
  | nil => intro acc; rfl
  | cons dataset rest ih =>
    intro acc
    simp only [datasetLoop, seriesLoop_zero_limit, ih]

/-- C10: a `lastNObservations` of `0` is falsy, so the parameter is not
appended to the outbound query string and no client-side cap is applied
during decoding; `queryData` behaves exactly as if the option were absent
and returns every decoded observation. -/
theorem lastN_zero_treated_as_absent (opts : QueryOptions) (p : Json)
    (dataflowId filter : String) (outcomes : Nat → AttemptOutcome) (payload : Json) :
    queryParams { opts with lastNObservations := some 0 } =
      queryParams { opts with lastNObservations := none } ∧
    parseDataObservations p (some 0) = parseDataObservations p none ∧
    queryData dataflowId filter { opts with lastNObservations := some 0 } outcomes payload =
      queryData dataflowId filter { opts with lastNObservations := none } outcomes payload := by
  have hparams : queryParams { opts with lastNObservations := some 0 } =
      queryParams { opts with lastNObservations := none } := by
    unfold queryParams
    rfl
  have hparse : ∀ q : Json, parseDataObservations q (some 0) = parseDataObservations q none := by
    intro q
    simp only [parseDataObservations, parseRun, datasetLoop_zero_limit]
  refine ⟨hparams, hparse p, ?_⟩
  unfold queryData
  cases getDataflowById dataflowId with
  | none => rfl
  | some df =>
    simp only [hparams, hparse]

/-- C8 counterexample: with one series dimension `FOO` whose coded value
list is empty, decoding the key `5` pairs the raw index string with the
dimension id `FOO`, not with the synthetic `DIM_0` the claim predicts
when the indexed value is absent. -/
theorem series_key_index_fallback_counterexample :
    parseSeriesKeyWithMetadata "5" dimsFOO = .ok [("FOO", Json.str "5")] ∧
    parseSeriesKeyWithMetadata "5" dimsFOO ≠ .ok [("DIM_0", Json.str "5")] := by
  refine ⟨rfl, ?_⟩
  intro h
  rw [show parseSeriesKeyWithMetadata "5" dimsFOO = .ok [("FOO", Json.str "5")] from rfl] at h
  simp only [Except.ok.injEq, List.cons.injEq, Prod.mk.injEq] at h
  exact absurd h.1.1 (by decide)

/-- C8 amended: position `i` of a series key resolves to
`dims[i].values[index].id` keyed by `dims[i].id` when the dimension is
present (truthy) and the indexed value exists with a truthy id; the
synthetic `DIM_i` fallback with the raw index string applies only when the
dimension at position `i` is absent or falsy; when the dimension is
present but the indexed value is absent, the raw index string is keyed
under the dimension's own id.  The observation key resolves against
`observationDimensions[0]` the same way, with fallback key `TIME_PERIOD`
when no observation dimension is present. -/
theorem series_key_resolution :
    (∀ (sdims : Json) (i : Nat) (v : String), sdims.index i = none →
      seriesKeyAssign sdims i v = .ok ("DIM_" ++ toString i, .str v)) ∧
    (∀ (sdims : Json) (i : Nat) (v : String) (d : Json), sdims.index i = some d →
      d.truthy = false →
      seriesKeyAssign sdims i v = .ok ("DIM_" ++ toString i, .str v)) ∧
    (∀ (sdims : Json) (i : Nat) (v : String) (d vs vo : Json) (n : Int) (cid : String),
      sdims.index i = some d → d.truthy = true → d.getProp "values" = some vs →
      parseJsInt v = some n → vs.index n = some vo → vo.getProp "id" = some (.str cid) →
      cid ≠ "" →
      seriesKeyAssign sdims i v = .ok (jsKeyString (d.getProp "id"), .str cid)) ∧
    (∀ (sdims : Json) (i : Nat) (v : String) (d vs : Json) (n : Int),
      sdims.index i = some d → d.truthy = true → d.getProp "values" = some vs →
      vs ≠ .null → parseJsInt v = some n → vs.index n = none →
      seriesKeyAssign sdims i v = .ok (jsKeyString (d.getProp "id"), .str v)) ∧
    (∀ (odims : Json) (k : String), odims.index 0 = none →
      mapObservationDimension k odims = .ok [("TIME_PERIOD", .str k)]) ∧
    (∀ (odims : Json) (k : String) (d vs vo : Json) (n : Int) (cid : String),
      odims.index 0 = some d → d.truthy = true → d.getProp "values" = some vs →
      parseJsInt k = some n → vs.index n = some vo → vo.getProp "id" = some (.str cid) →
      cid ≠ "" →
      mapObservationDimension k odims = .ok [(jsKeyString (d.getProp "id"), .str cid)]) := by
  have hindexE : ∀ (vs : Json) (n : Int), vs ≠ Json.null →
      indexE (some vs) (some n) = .ok (vs.index n) := by
    intro vs n hvs
    cases vs with
    | null => exact absurd rfl hvs
    | bool b => rfl
    | num m => rfl
    | str s => rfl
    | arr l => rfl
    | obj l => rfl
  have hgetOpt : ∀ (vo : Json) (k : String), vo ≠ Json.null →
      getPropOpt (some vo) k = vo.getProp k := by
    intro vo k hvo
    cases vo with
    | null => exact absurd rfl hvo
    | bool b => rfl
    | num m => rfl
    | str s => rfl
    | arr l => rfl
    | obj l => rfl
  have hvsNotNull : ∀ (vs vo : Json) (n : Int), vs.index n = some vo → vs ≠ Json.null := by
    intro vs vo n h2 hn
    rw [hn] at h2
    simp [Json.index] at h2
  have hvoNotNull : ∀ (vo w : Json) (k : String), vo.getProp k = some w → vo ≠ Json.null := by
    intro vo w k h3 hn
    rw [hn] at h3
    simp [Json.getProp] at h3
  refine ⟨?_, ?_, ?_, ?_, ?_, ?_⟩
  · intro sdims i v h
    simp only [seriesKeyAssign, h]
  · intro sdims i v d h ht
    simp [seriesKeyAssign, h, ht]
  · intro sdims i v d vs vo n cid h ht h1 hp h2 h3 h4
    have htr : (Json.str cid).truthy = true := by simp [Json.truthy, h4]
    simp only [seriesKeyAssign, h, ht, if_true, hp, h1,
      hindexE vs n (hvsNotNull vs vo n h2), h2,
      hgetOpt vo "id" (hvoNotNull vo (.str cid) "id" h3), h3, jsOrJ, htr]
  · intro sdims i v d vs n h ht h1 hvs hp h2
    simp only [seriesKeyAssign, h, ht, if_true, hp, h1, hindexE vs n hvs, h2, jsOrJ,
      getPropOpt]
  · intro odims k h
    simp only [mapObservationDimension, h]
  · intro odims k d vs vo n cid h ht h1 hp h2 h3 h4
    have htr : (Json.str cid).truthy = true := by simp [Json.truthy, h4]
    simp only [mapObservationDimension, h, ht, if_true, hp, h1,
      hindexE vs n (hvsNotNull vs vo n h2), h2,
      hgetOpt vo "id" (hvoNotNull vo (.str cid) "id" h3), h3, jsOrJ, htr]

/-- Witness for the amended C8, one concrete input per case: absent
dimension, falsy dimension, fully resolved value, present dimension with
absent indexed value, absent observation dimension, resolved observation
dimension. -/
theorem series_key_resolution_witness :
    seriesKeyAssign (Json.arr []) 0 "5" = .ok ("DIM_0", .str "5") ∧
    seriesKeyAssign (Json.arr [.num 0]) 0 "5" = .ok ("DIM_0", .str "5") ∧
    seriesKeyAssign dimsREF 0 "0" = .ok ("REF", .str "USA") ∧
    seriesKeyAssign dimsFOO 0 "5" = .ok ("FOO", .str "5") ∧
    mapObservationDimension "3" (Json.arr []) = .ok [("TIME_PERIOD", .str "3")] ∧
    mapObservationDimension "0" dimsREF = .ok [("REF", .str "USA")] := by
  refine ⟨?_, ?_, ?_, ?_, ?_, ?_⟩
  · exact series_key_resolution.1 (Json.arr []) 0 "5" rfl
  · exact series_key_resolution.2.1 (Json.arr [.num 0]) 0 "5" (.num 0) rfl rfl
  · exact series_key_resolution.2.2.1 dimsREF 0 "0"
      (.obj [("id", .str "REF"), ("values", .arr [.obj [("id", .str "USA")]])])
      (.arr [.obj [("id", .str "USA")]]) (.obj [("id", .str "USA")]) 0 "USA"
      rfl rfl rfl rfl rfl rfl (by decide)
  · exact series_key_resolution.2.2.2.1 dimsFOO 0 "5"
      (.obj [("id", .str "FOO"), ("name", .str "Foo"), ("values", .arr [])])
      (.arr []) 5 rfl rfl rfl (fun hh => Json.noConfusion hh) rfl rfl
  · exact series_key_resolution.2.2.2.2.1 (Json.arr []) "3" rfl
  · exact series_key_resolution.2.2.2.2.2 dimsREF "0"
      (.obj [("id", .str "REF"), ("values", .arr [.obj [("id", .str "USA")]])])
      (.arr [.obj [("id", .str "USA")]]) (.obj [("id", .str "USA")]) 0 "USA"
      rfl rfl rfl rfl rfl rfl (by decide)

/-- An unlimited observation loop run is the denotation appended to the
accumulator, or a throw. -/
theorem obsLoop_none_eq (sd : List (String × Json)) (od : Json) :
    ∀ entries acc, obsLoop none sd od acc entries =
      match obsDenote sd od entries with
      | .ok recs => .cont (acc ++ recs)
      | .error _ => .thrown := by
  intro entries
  induction entries with
  | nil => intro acc; simp [obsLoop, obsDenote]
  | cons e rest ih =>
    intro acc
    obtain ⟨k, v⟩ := e
    simp only [obsLoop, obsDenote, limitActive]
    cases hr : obsRecord sd od k v with
    | error e0 => rfl
    | ok r =>
      dsimp only
      rw [ih (acc ++ [r])]
      cases hrest : obsDenote sd od rest with
      | error e0 => rfl
      | ok rs => simp

theorem seriesLoop_none_eq (sdims odims : Json) :
    ∀ entries acc, seriesLoop none sdims odims acc entries =
      match seriesDenote sdims odims entries with
      | .ok recs => .cont (acc ++ recs)
      | .error _ => .thrown := by
  intro entries
  induction entries with
  | nil => intro acc; simp [seriesLoop, seriesDenote]
  | cons e rest ih =>
    intro acc
    obtain ⟨k, v⟩ := e
    simp only [seriesLoop, seriesDenote, seriesDenoteOne]
    cases hp : parseSeriesKeyWithMetadata k sdims with
    | error e0 => rfl
    | ok dims =>
      dsimp only
      cases hob : getPropE (some v) "observations" with
      | error e0 => rfl
      | ok obsProp =>
        dsimp only
        rw [obsLoop_none_eq]
        cases h1 : obsDenote dims odims (jsEntries (jsOrJ obsProp (.obj []))) with
        | error e0 => rfl
        | ok r1 =>
          dsimp only
          rw [ih (acc ++ r1)]
          cases h2 : seriesDenote sdims odims rest with
          | error e0 => rfl
          | ok rs => simp

theorem datasetLoop_none_eq (sdims odims : Json) :
    ∀ ds acc, datasetLoop none sdims odims acc ds =
      match datasetDenote sdims odims ds with
      | .ok recs => .cont (acc ++ recs)
      | .error _ => .thrown := by
  intro ds
  induction ds with
  | nil => intro acc; simp [datasetLoop, datasetDenote]
  | cons dataset rest ih =>
    intro acc
    simp only [datasetLoop, datasetDenote, datasetDenoteOne]
    cases hs : getPropE (some dataset) "series" with
    | error e0 => rfl
    | ok seriesProp =>
      dsimp only
      rw [seriesLoop_none_eq]
      cases h1 : seriesDenote sdims odims (jsEntries (jsOrJ seriesProp (.obj []))) with
      | error e0 => rfl
      | ok r1 =>
        dsimp only
        rw [ih (acc ++ r1)]
        cases h2 : datasetDenote sdims odims rest with
        | error e0 => rfl
        | ok rs => simp

/-- A limited observation loop run over entries whose denotation does not
throw: it appends the whole denotation when it fits under the limit, and
otherwise returns early with exactly the prefix that reaches the limit. -/
theorem obsLoop_some_eq (sd : List (String × Json)) (od : Json) (L : Nat) (hL : 0 < L) :
    ∀ entries acc recs, acc.length ≤ L → obsDenote sd od entries = .ok recs →
    obsLoop (some L) sd od acc entries =
      if acc.length + recs.length ≤ L ∧ (acc.length < L ∨ recs.length = 0) then
        .cont (acc ++ recs)
      else
        .ret (acc ++ recs.take (L - acc.length)) := by
  intro entries
  induction entries with
  | nil =>
    intro acc recs hacc hok
    injection hok with h
    subst h
    rw [if_pos ⟨by simpa using hacc, Or.inr rfl⟩]
    simp [obsLoop]
  | cons e rest ih =>
    intro acc recs hacc hok
    obtain ⟨k, v⟩ := e
    simp only [obsDenote] at hok
    cases hr : obsRecord sd od k v with
    | error e0 => rw [hr] at hok; exact Except.noConfusion hok
    | ok r =>
      rw [hr] at hok
      cases hrest : obsDenote sd od rest with
      | error e0 => rw [hrest] at hok; exact Except.noConfusion hok
      | ok rs =>
        rw [hrest] at hok
        injection hok with h
        subst h
        by_cases hge : L ≤ acc.length
        · have haccL : acc.length = L := le_antisymm hacc hge
          have hguard : limitActive (some L) acc.length = true := by
            simp only [limitActive, Bool.and_eq_true, bne_iff_ne, ne_eq,
              decide_eq_true_eq]
            omega
          have hcond : ¬(acc.length + (r :: rs).length ≤ L ∧
              (acc.length < L ∨ (r :: rs).length = 0)) := by
            simp only [List.length_cons]
            omega
          rw [if_neg hcond]
          have htake : L - acc.length = 0 := by omega
          simp [obsLoop, hguard, htake]
        · have hlt : acc.length < L := by omega
          have hguard : limitActive (some L) acc.length = false := by
            simp only [limitActive, Bool.and_eq_false_iff, bne_iff_ne, ne_eq,
              decide_eq_false_iff_not]
            omega
          have hstep : obsLoop (some L) sd od acc ((k, v) :: rest) =
              obsLoop (some L) sd od (acc ++ [r]) rest := by
            simp [obsLoop, hguard, hr]
          rw [hstep, ih (acc ++ [r]) rs (by simp; omega) hrest]
          by_cases hsum : acc.length + (r :: rs).length ≤ L
          · have hsum2 : (acc ++ [r]).length + rs.length ≤ L := by simp at hsum ⊢; omega
            have hside : (acc ++ [r]).length < L ∨ rs.length = 0 := by
              rcases Nat.eq_zero_or_pos rs.length with h0 | h0
              · exact Or.inr h0
              · exact Or.inl (by simp at hsum ⊢; omega)
            rw [if_pos ⟨hsum2, hside⟩, if_pos ⟨hsum, Or.inl hlt⟩]
            simp
          · have hsum2 : ¬((acc ++ [r]).length + rs.length ≤ L ∧
                ((acc ++ [r]).length < L ∨ rs.length = 0)) := by
              intro ⟨hc, _⟩
              simp at hc hsum
              omega
            rw [if_neg hsum2, if_neg (by intro ⟨hc, _⟩; exact hsum hc)]
            have hm : L - acc.length = (L - (acc ++ [r]).length) + 1 := by
              simp
              omega
            rw [hm, List.take_succ_cons]
            simp

theorem seriesLoop_some_eq (sdims odims : Json) (L : Nat) (hL : 0 < L) :
    ∀ entries acc recs, acc.length ≤ L → seriesDenote sdims odims entries = .ok recs →
    seriesLoop (some L) sdims odims acc entries =
      if acc.length + recs.length ≤ L ∧ (acc.length < L ∨ recs.length = 0) then
        .cont (acc ++ recs)
      else
        .ret (acc ++ recs.take (L - acc.length)) := by
  intro entries
  induction entries with
  | nil =>
    intro acc recs hacc hok
    injection hok with h
    subst h
    rw [if_pos ⟨by simpa using hacc, Or.inr rfl⟩]
    simp [seriesLoop]
  | cons e rest ih =>
    intro acc recs hacc hok
    obtain ⟨k, v⟩ := e
    simp only [seriesDenote, seriesDenoteOne] at hok
    cases hp : parseSeriesKeyWithMetadata k sdims with
    | error e0 => rw [hp] at hok; exact Except.noConfusion hok
    | ok dims =>
      rw [hp] at hok
      dsimp only at hok
      cases hob : getPropE (some v) "observations" with
      | error e0 => rw [hob] at hok; exact Except.noConfusion hok
      | ok obsProp =>
        rw [hob] at hok
        dsimp only at hok
        cases h1 : obsDenote dims odims (jsEntries (jsOrJ obsProp (.obj []))) with
        | error e0 => rw [h1] at hok; exact Except.noConfusion hok
        | ok r1 =>
          rw [h1] at hok
          cases h2 : seriesDenote sdims odims rest with
          | error e0 => rw [h2] at hok; exact Except.noConfusion hok
          | ok rs =>
            rw [h2] at hok
            injection hok with h
            subst h
            have hstep : seriesLoop (some L) sdims odims acc ((k, v) :: rest) =
                match obsLoop (some L) dims odims acc
                    (jsEntries (jsOrJ obsProp (.obj []))) with
                | .ret l => .ret l
                | .thrown => .thrown
                | .cont acc2 => seriesLoop (some L) sdims odims acc2 rest := by
              simp [seriesLoop, hp, hob]
            rw [hstep, obsLoop_some_eq dims odims L hL _ acc r1 hacc h1]
            by_cases hA : acc.length + r1.length ≤ L ∧ (acc.length < L ∨ r1.length = 0)
            · rw [if_pos hA]
              dsimp only
              rw [ih (acc ++ r1) rs (by simp; omega) h2]
              by_cases hsum : acc.length + (r1 ++ rs).length ≤ L
              · have hsum1 : (acc ++ r1).length + rs.length ≤ L := by
                  simp at hsum ⊢; omega
                have hside : (acc ++ r1).length < L ∨ rs.length = 0 := by
                  rcases Nat.eq_zero_or_pos rs.length with h0 | h0
                  · exact Or.inr h0
                  · exact Or.inl (by simp at hsum ⊢; omega)
                have hside2 : acc.length < L ∨ (r1 ++ rs).length = 0 := by
                  rcases hA.2 with hc | hc
                  · exact Or.inl hc
                  · rcases Nat.eq_zero_or_pos rs.length with h0 | h0
                    · exact Or.inr (by simp [hc, h0])
                    · exact Or.inl (by simp at hsum; omega)
                rw [if_pos ⟨hsum1, hside⟩, if_pos ⟨hsum, hside2⟩]
                simp
              · have hsum1 : ¬((acc ++ r1).length + rs.length ≤ L ∧
                    ((acc ++ r1).length < L ∨ rs.length = 0)) := by
                  intro ⟨hc, _⟩
                  simp at hc hsum
                  omega
                rw [if_neg hsum1, if_neg (by intro ⟨hc, _⟩; exact hsum hc)]
                have htk : (r1 ++ rs).take (L - acc.length) =
                    r1 ++ rs.take (L - (acc ++ r1).length) := by
                  rw [List.take_append_eq_append_take,
                    List.take_of_length_le (by omega : r1.length ≤ L - acc.length)]
                  have harith : L - acc.length - r1.length = L - (acc ++ r1).length := by
                    simp only [List.length_append]
                    omega
                  rw [harith]
                rw [htk]
                simp
            · rw [if_neg hA]
              dsimp only
              push_neg at hA
              by_cases hsum1 : acc.length + r1.length ≤ L
              · obtain ⟨hnl, hr1pos⟩ := hA hsum1
                have haccL : acc.length = L := by omega
                have hcond : ¬(acc.length + (r1 ++ rs).length ≤ L ∧
                    (acc.length < L ∨ (r1 ++ rs).length = 0)) := by
                  intro ⟨hc, _⟩
                  simp at hc
                  omega
                rw [if_neg hcond]
                have h0 : L - acc.length = 0 := by omega
                simp [h0]
              · have hcond : ¬(acc.length + (r1 ++ rs).length ≤ L ∧
                    (acc.length < L ∨ (r1 ++ rs).length = 0)) := by
                  intro ⟨hc, _⟩
                  simp at hc
                  omega
                rw [if_neg hcond]
                have htk : (r1 ++ rs).take (L - acc.length) = r1.take (L - acc.length) := by
                  rw [List.take_append_eq_append_take]
                  have h0 : L - acc.length - r1.length = 0 := by omega
                  simp [h0]
                rw [htk]

theorem datasetLoop_some_eq (sdims odims : Json) (L : Nat) (hL : 0 < L) :
    ∀ ds acc recs, acc.length ≤ L → datasetDenote sdims odims ds = .ok recs →
    datasetLoop (some L) sdims odims acc ds =
      if acc.length + recs.length ≤ L ∧ (acc.length < L ∨ recs.length = 0) then
        .cont (acc ++ recs)
      else
        .ret (acc ++ recs.take (L - acc.length)) := by
  intro ds
  induction ds with
  | nil =>
    intro acc recs hacc hok
    injection hok with h
    subst h
    rw [if_pos ⟨by simpa using hacc, Or.inr rfl⟩]
    simp [datasetLoop]
  | cons dataset rest ih =>
    intro acc recs hacc hok
    simp only [datasetDenote, datasetDenoteOne] at hok
    cases hs : getPropE (some dataset) "series" with
    | error e0 => rw [hs] at hok; exact Except.noConfusion hok
    | ok seriesProp =>
      rw [hs] at hok
      dsimp only at hok
      cases h1 : seriesDenote sdims odims (jsEntries (jsOrJ seriesProp (.obj []))) with
      | error e0 => rw [h1] at hok; exact Except.noConfusion hok
      | ok r1 =>
        rw [h1] at hok
        cases h2 : datasetDenote sdims odims rest with
        | error e0 => rw [h2] at hok; exact Except.noConfusion hok
        | ok rs =>
          rw [h2] at hok
          injection hok with h
          subst h
          have hstep : datasetLoop (some L) sdims odims acc (dataset :: rest) =
              match seriesLoop (some L) sdims odims acc
                  (jsEntries (jsOrJ seriesProp (.obj []))) with
              | .ret l => .ret l
              | .thrown => .thrown
              | .cont acc2 => datasetLoop (some L) sdims odims acc2 rest := by
            simp [datasetLoop, hs]
          rw [hstep, seriesLoop_some_eq sdims odims L hL _ acc r1 hacc h1]
          by_cases hA : acc.length + r1.length ≤ L ∧ (acc.length < L ∨ r1.length = 0)
          · rw [if_pos hA]
            dsimp only
            rw [ih (acc ++ r1) rs (by simp; omega) h2]
            by_cases hsum : acc.length + (r1 ++ rs).length ≤ L
            · have hsum1 : (acc ++ r1).length + rs.length ≤ L := by
                simp at hsum ⊢; omega
              have hside : (acc ++ r1).length < L ∨ rs.length = 0 := by
                rcases Nat.eq_zero_or_pos rs.length with h0 | h0
                · exact Or.inr h0
                · exact Or.inl (by simp at hsum ⊢; omega)
              have hside2 : acc.length < L ∨ (r1 ++ rs).length = 0 := by
                rcases hA.2 with hc | hc
                · exact Or.inl hc
                · rcases Nat.eq_zero_or_pos rs.length with h0 | h0
                  · exact Or.inr (by simp [hc, h0])
                  · exact Or.inl (by simp at hsum; omega)
              rw [if_pos ⟨hsum1, hside⟩, if_pos ⟨hsum, hside2⟩]
              simp
            · have hsum1 : ¬((acc ++ r1).length + rs.length ≤ L ∧
                  ((acc ++ r1).length < L ∨ rs.length = 0)) := by
                intro ⟨hc, _⟩
                simp at hc hsum
                omega
              rw [if_neg hsum1, if_neg (by intro ⟨hc, _⟩; exact hsum hc)]
              have htk : (r1 ++ rs).take (L - acc.length) =
                  r1 ++ rs.take (L - (acc ++ r1).length) := by
                rw [List.take_append_eq_append_take,
                  List.take_of_length_le (by omega : r1.length ≤ L - acc.length)]
                have harith : L - acc.length - r1.length = L - (acc ++ r1).length := by
                  simp only [List.length_append]
                  omega
                rw [harith]
              rw [htk]
              simp
          · rw [if_neg hA]
            dsimp only
            push_neg at hA
            by_cases hsum1 : acc.length + r1.length ≤ L
            · obtain ⟨hnl, hr1pos⟩ := hA hsum1
              have haccL : acc.length = L := by omega
              have hcond : ¬(acc.length + (r1 ++ rs).length ≤ L ∧
                  (acc.length < L ∨ (r1 ++ rs).length = 0)) := by
                intro ⟨hc, _⟩
                simp at hc
                omega
              rw [if_neg hcond]
              have h0 : L - acc.length = 0 := by omega
              simp [h0]
            · have hcond : ¬(acc.length + (r1 ++ rs).length ≤ L ∧
                  (acc.length < L ∨ (r1 ++ rs).length = 0)) := by
                intro ⟨hc, _⟩
                simp at hc
                omega
              rw [if_neg hcond]
              have htk : (r1 ++ rs).take (L - acc.length) = r1.take (L - acc.length) := by
                rw [List.take_append_eq_append_take]
                have h0 : L - acc.length - r1.length = 0 := by omega
                simp [h0]
              rw [htk]


/-- C6: whenever the unlimited decode of a payload succeeds with `total`
records, decoding with a positive client-side limit `L` returns exactly
the first `min L total.length` records: the loop stops as soon as the
record count reaches `L`. -/
theorem client_limit_yields_min (p : Json) (L : Nat) (total : List SDMXObservation)
    (hL : 0 < L) (h : parseRun p none = some total) :
    parseDataObservations p none = total ∧
    parseDataObservations p (some L) = total.take L ∧
    (parseDataObservations p (some L)).length = min L total.length := by
  have hrun : parseRun p (some L) = some (total.take L) := by
    simp only [parseRun] at h ⊢
    cases hit : jsIterate (jsOrJ (getPropOpt (getPropOpt (some p) "data") "dataSets")
        (.arr [])) with
    | error e0 => rw [hit] at h; exact Option.noConfusion h
    | ok ds =>
      rw [hit] at h
      dsimp only at h ⊢
      rw [datasetLoop_none_eq] at h
      cases hd : datasetDenote (extractDimensionMetadata p).1
          (extractDimensionMetadata p).2 ds with
      | error e0 => rw [hd] at h; exact Option.noConfusion h
      | ok recs =>
        rw [hd] at h
        dsimp only at h
        injection h with h
        rw [List.nil_append] at h
        subst h
        rw [datasetLoop_some_eq (extractDimensionMetadata p).1
          (extractDimensionMetadata p).2 L hL ds [] recs (by simp) hd]
        by_cases hfit : recs.length ≤ L
        · rw [if_pos ⟨by simpa using hfit, Or.inl hL⟩]
          dsimp only
          rw [List.nil_append, List.take_of_length_le hfit]
        · rw [if_neg (by intro ⟨hc, _⟩; simp at hc; omega)]
          simp
  refine ⟨by simp [parseDataObservations, h], by simp [parseDataObservations, hrun], ?_⟩
  simp only [parseDataObservations, hrun, Option.getD_some]
  rw [List.length_take]

set_option maxRecDepth 100000 in
/-- Witness for C6: a payload with 200 raw observations decodes to 200
records without a limit and to exactly 50 records with limit 50. -/
theorem client_limit_yields_min_witness :
    0 < 50 ∧
    (parseDataObservations payload200 none).length = 200 ∧
    (parseDataObservations payload200 (some 50)).length = 50 := by
  have h : parseRun payload200 none = some (parseDataObservations payload200 none) := rfl
  have hthm := client_limit_yields_min payload200 50
    (parseDataObservations payload200 none) (by decide) h
  refine ⟨by decide, by rfl, ?_⟩
  rw [hthm.2.2]
  rw [show (parseDataObservations payload200 none).length = 200 from rfl]
  decide

end OecdSdmx
